import Mathlib

/-!
Verification development for the Bain_Case_Study RAG chatbot
(`src/rag_chatbot`).  The Python modules `src/rag_chain.py`,
`utils/query_processor.py` and `src/main.py` are shallowly embedded as
executable Lean definitions; external services (Azure chat completion,
embeddings, the Chroma evidence store, the filesystem) are passed in as
explicit oracle functions returning `Except`, so that a Python call that
may raise is modelled by an `Except.error` result and Python's
`try/except` blocks by matching on it.
-/

/-- A chat message dict `{"role": ..., "content": ...}`. -/
structure Message where
  role : String
  content : String
deriving DecidableEq, BEq, Repr

/-- Python `s.strip()`: remove leading and trailing whitespace.
Implemented over the character list so that it evaluates in the kernel. -/
def pyStrip (s : String) : String :=
  String.mk (((s.data.dropWhile Char.isWhitespace).reverse.dropWhile
    Char.isWhitespace).reverse)

/-- Split a character list at every character satisfying `p`, like Python
`re`-free `str.split(sep)` for a one-character separator: `acc` holds the
(reversed) characters of the current field. -/
def splitWhenAux (p : Char → Bool) : List Char → List Char → List String
  | [], acc => [String.mk acc.reverse]
  | x :: xs, acc =>
    if p x then String.mk acc.reverse :: splitWhenAux p xs []
    else splitWhenAux p xs (x :: acc)

/-- Python `s.split(c)` for a single-character separator `c`. -/
def splitOnChar (c : Char) (s : String) : List String :=
  splitWhenAux (fun x => x == c) s.data []

/-- Python `s.split()` with no argument: split on whitespace, dropping
empty tokens. -/
def pySplitWhitespace (s : String) : List String :=
  (splitWhenAux Char.isWhitespace s.data []).filter (fun t => !t.data.isEmpty)

/-- Python `l[-n:]`: the trailing window of at most `n` elements. -/
def pyTakeLast (n : Nat) (l : List α) : List α :=
  l.drop (l.length - n)

/-- Python `line.split('.', 1)[-1]`: everything after the first `'.'`,
or the whole string when it contains no `'.'`. -/
def splitFirstDotTail (s : String) : String :=
  match s.data.dropWhile (fun c => !(c == '.')) with
  | [] => s
  | _ :: rest => String.mk rest

namespace RagChain

/-- The fixed system message content, from `RAGChatbot._build_system_prompt`
in `src/rag_chain.py`. -/
def build_system_prompt : String :=
  "You are an AI assistant for Acme Corp's HR policies. Your role is to help employees understand company policies by answering questions based on the provided context.\n\nGuidelines:\n- Answer based ONLY on the provided context. You may refer to previous messages for clarity in case the user query is not clear.\n- If information is not in the context, say \"I don't have that information in the HR policy documents\"\n- Be concise and professional\n- Use bullet points for lists\n- Cite specific policy sections when relevant\n- Reword the context properly so it looks more professional and less like copy-pasting\n\nRemember: You are helpful, accurate, and only provide information from official HR documents."

/-- A retrieved document as `RAGChatbot._format_context` expects it:
`doc['metadata'].get('section_title', 'Unknown')` and `doc['document']`.
`section_title = none` models a metadata dict without that key. -/
structure RetrievedDoc where
  section_title : Option String
  document : String
deriving DecidableEq, Repr

/-- `RAGChatbot._format_context` (src/rag_chain.py, lines 52-61): render each
document as `[Source i - section]\ntext` (1-based `i`) and join the parts
with a blank line. -/
def format_context (retrieved_docs : List RetrievedDoc) : String :=
  String.intercalate "\n\n" (retrieved_docs.enum.map (fun p =>
    "[Source " ++ toString (p.1 + 1) ++ " - " ++ p.2.section_title.getD "Unknown"
      ++ "]\n" ++ p.2.document))

/-- The f-string content of the final user message in
`RAGChatbot._build_prompt`. -/
def context_user_message (query context : String) : String :=
  "Context from HR documents:\n" ++ context ++ "\n\nQuestion: " ++ query

/-- `RAGChatbot._build_prompt` (src/rag_chain.py, lines 63-86): start from the
system message, extend with the last 6 history messages when the history is
truthy, then `if len(messages) > 2: messages.pop(0)` (which removes the
element at index 0), and finally append the context-bearing user message. -/
def build_prompt (query : String) (context : String)
    (conversation_history : List Message) : List Message :=
  let messages := [Message.mk "system" build_system_prompt]
  let messages :=
    if conversation_history.isEmpty then messages
    else messages ++ pyTakeLast 6 conversation_history
  let messages := if messages.length > 2 then messages.drop 1 else messages
  messages ++ [Message.mk "user" (context_user_message query context)]

end RagChain

namespace QueryProcessor

/-- The contextualization system prompt of
`QueryProcessor._contextualize_query`. -/
def contextualize_system_prompt : String :=
  "You are a query contextualizer. Rephrase the query to be standalone and complete using conversation history.\n\nRules:\n- If query is vague, add context from history\n- If query is already complete, return unchanged\n- Return ONLY the rephrased query\n\nExamples:\nHistory: User asks about leave policy\nQuery: \"How many sick days?\"\nOutput: How many sick days does Acme Corp provide?"

/-- The message list `QueryProcessor._contextualize_query` sends to the chat
client: system prompt, last 2 history messages (when the history is truthy),
then the user query. -/
def contextualize_messages (query : String)
    (conversation_history : List Message) : List Message :=
  let messages := [Message.mk "system" contextualize_system_prompt]
  let messages :=
    if conversation_history.isEmpty then messages
    else messages ++ pyTakeLast 2 conversation_history
  messages ++ [Message.mk "user" query]

/-- `QueryProcessor._contextualize_query` (utils/query_processor.py, lines
58-97).  The skip condition `if not conversation_history or
len(query.split()) > 10` returns the query unchanged; otherwise the chat
client is called and its stripped response returned, any exception being
caught and the original query returned. -/
def contextualize_query (query : String) (conversation_history : List Message)
    (complete : List Message → Except String String) : String :=
  if conversation_history.isEmpty || (pySplitWhitespace query).length > 10 then
    query
  else
    match complete (contextualize_messages query conversation_history) with
    | Except.ok response => pyStrip response
    | Except.error _ => query

/-- The decomposition system prompt of `QueryProcessor._decompose_query`. -/
def decompose_system_prompt : String :=
  "Split query into multiple questions if needed. Return numbered list.\n\nExamples:\nInput: \"What is leave policy?\"\nOutput:\n1. What is leave policy?\n\nInput: \"What is leave policy and dress code?\"\nOutput:\n1. What is our leave policy?\n2. What is our dress code?"

/-- The message list `QueryProcessor._decompose_query` sends to the chat
client. -/
def decompose_messages (query : String) : List Message :=
  [Message.mk "system" decompose_system_prompt, Message.mk "user" query]

/-- The guard `if line and (line[0].isdigit() or line.startswith('-'))` of
`QueryProcessor._decompose_query`: the stripped line is non-empty and begins
with a digit (`line[0].isdigit()`, here ASCII digits) or a dash. -/
def decompose_kept_line (line : String) : Bool :=
  match line.data with
  | [] => false
  | c :: _ => c.isDigit || c == '-'

/-- The response-parsing loop of `QueryProcessor._decompose_query`
(utils/query_processor.py, lines 125-139): split the stripped response into
lines; for each stripped line passing `decompose_kept_line`, take
`line.split('.', 1)[-1].strip()` and append it when non-empty; if nothing
was collected, return the whole stripped response as a single query. -/
def parse_decompose_response (response : String) : List String :=
  let lines := splitOnChar '\n' (pyStrip response)
  let queries := lines.foldl (fun queries l =>
    let line := pyStrip l
    if decompose_kept_line line then
      let q := pyStrip (splitFirstDotTail line)
      if !q.data.isEmpty then queries ++ [q] else queries
    else queries) []
  if queries.isEmpty then [pyStrip response] else queries

/-- `QueryProcessor._decompose_query` (utils/query_processor.py, lines
99-143): call the chat client on the decomposition prompt and parse the
response; any exception is caught and `[query]` returned — `query` being
this function's argument (the stage-A output). -/
def decompose_query (query : String)
    (complete : List Message → Except String String) : List String :=
  match complete (decompose_messages query) with
  | Except.ok response => parse_decompose_response response
  | Except.error _ => [query]

/-- `QueryProcessor.process_query` (utils/query_processor.py, lines 37-56):
contextualize, then decompose.  Both stages go through the same chat client,
modelled by the single oracle `complete`. -/
def process_query (query : String) (conversation_history : List Message)
    (complete : List Message → Except String String) : List String :=
  decompose_query (contextualize_query query conversation_history complete)
    complete

/-- The parsing rule exactly as claim C7 words it (defined from the spec's
words, for comparison with `parse_decompose_response`): keep the lines that
begin with a digit or a dash, strip the leading marker (the digit run or the
dash) and any period that follows it, and return the trimmed remainders in
line order; if no line matches, the entire trimmed response is the single
sub-query. -/
def spec_parse_decompose (response : String) : List String :=
  let lines := (splitOnChar '\n' (pyStrip response)).map pyStrip
  let kept := lines.filter decompose_kept_line
  let remainders := kept.map (fun line =>
    let after_marker :=
      if line.data.head? == some '-' then line.data.drop 1
      else line.data.dropWhile Char.isDigit
    let after_period :=
      match after_marker with
      | '.' :: rest => rest
      | l => l
    pyStrip (String.mk after_period))
  if remainders.isEmpty then [pyStrip response] else remainders

/-- One kept line's contribution in `parse_decompose_response`, as an
`Option`: the trimmed text after the first period (the whole line when it
has none), or `none` for a line that is not kept or whose remainder is
empty. -/
def decompose_line_remainder (l : String) : Option String :=
  let line := pyStrip l
  if decompose_kept_line line then
    let q := pyStrip (splitFirstDotTail line)
    if q.data.isEmpty then none else some q
  else none

/-- The parsing rule as claim C7 must be amended to match the code: kept
lines map to `decompose_line_remainder` (text after the first period, whole
line when none; empty remainders dropped), with the same
whole-trimmed-response fallback. -/
def amended_parse_decompose (response : String) : List String :=
  let remainders :=
    (splitOnChar '\n' (pyStrip response)).filterMap decompose_line_remainder
  if remainders.isEmpty then [pyStrip response] else remainders

end QueryProcessor

namespace MainApi

/-- A JSON value, as `json.load` can return it (numbers abstracted to `Int`;
object fields in file order). -/
inductive Json where
  | null
  | bool (b : Bool)
  | num (n : Int)
  | str (s : String)
  | arr (items : List Json)
  | obj (fields : List (String × Json))

/-- What reading the conversations file can yield: the file is missing, it
exists but `json.load` raises `JSONDecodeError`, or it parses to a JSON
value. -/
inductive FileContent where
  | missing
  | unparseable
  | parsed (data : Json)

/-- Python `data.get("session_id")` for a parsed JSON object's field list:
`none` models Python `None` for an absent key. -/
def session_id_of (fields : List (String × Json)) : Option Json :=
  (fields.find? (fun p => p.1 == "session_id")).map Prod.snd

/-- The fresh conversation dict `{"session_id": session_id, "messages": []}`
built at the end of `load_conversation`. -/
def fresh_conversation (session_id : String) : Json :=
  Json.obj [("session_id", Json.str session_id), ("messages", Json.arr [])]

/-- `load_conversation` (src/main.py, lines 50-67), at JSON level.  A missing
file or a `JSONDecodeError` (caught) yields a fresh conversation; a parsed
JSON object is returned verbatim when `data.get("session_id") == session_id`
and otherwise replaced by a fresh conversation; on a parsed non-object value
`data.get` raises `AttributeError`, which nothing in the function catches. -/
def load_conversation (session_id : String) (file : FileContent) :
    Except String Json :=
  match file with
  | FileContent.missing => Except.ok (fresh_conversation session_id)
  | FileContent.unparseable => Except.ok (fresh_conversation session_id)
  | FileContent.parsed data =>
    match data with
    | Json.obj fields =>
      match session_id_of fields with
      | some (Json.str s) =>
        if s == session_id then Except.ok (Json.obj fields)
        else Except.ok (fresh_conversation session_id)
      | _ => Except.ok (fresh_conversation session_id)
    | _ => Except.error "AttributeError"

/-- `ChatRequest` from models/chats.py. -/
structure ChatRequest where
  session_id : Option String
  user_message : String

/-- `ChatResponse` from models/chats.py. -/
structure ChatResponse where
  session_id : String
  bot_message : String
deriving DecidableEq, Repr

/-- A well-formed persisted conversation record
`{"session_id": ..., "messages": [...]}`. -/
structure Conversation where
  session_id : String
  messages : List Message
deriving DecidableEq, Repr

/-- `load_conversation` restricted to well-formed stores, as `chat_endpoint`
consumes it: `none` models a missing or unreadable conversations file, and a
stored record is returned exactly when its session id matches; otherwise a
fresh empty conversation is created. -/
def load_conversation_record (session_id : String)
    (store : Option Conversation) : Conversation :=
  match store with
  | some c => if c.session_id == session_id then c else Conversation.mk session_id []
  | none => Conversation.mk session_id []

/-- The external collaborators `chat_endpoint` calls, as fallible oracles:
the query processor's chat client, `retriever.embedding_client
.create_embeddings`, the two `retriever.collection.query` calls (returning
their `"documents"` field, a list of document lists), and
`chat_client.complete`.  Embedding vectors are abstracted to `Int`. -/
structure Oracles where
  qp_complete : List Message → Except String String
  create_embeddings : List String → Except String (List Int)
  semantic_query : Int → Except String (List (List String))
  keyword_query : Int → String → Except String (List (List String))
  chat_complete : List Message → Except String String

/-- The retrieval loop of `chat_endpoint` (src/main.py, lines 105-130): for
each rephrased query, embed it, take `embs[0]` (an `IndexError` if empty),
run the semantic query (`n_results=5`) and the keyword query (`n_results=1`),
and append both `"documents"` fields to `context`.  No exception is caught
here: any failure propagates out of the loop. -/
def gather_context_loop (o : Oracles)
    (context : List (List (List String))) :
    List String → Except String (List (List (List String)))
  | [] => Except.ok context
  | query :: rest =>
    match o.create_embeddings [query] with
    | Except.error e => Except.error e
    | Except.ok embs =>
      match embs with
      | [] => Except.error "IndexError"
      | query_embedding :: _ =>
        match o.semantic_query query_embedding with
        | Except.error e => Except.error e
        | Except.ok semantic_documents =>
          match o.keyword_query query_embedding query with
          | Except.error e => Except.error e
          | Except.ok keyword_documents =>
            gather_context_loop o
              (context ++ [semantic_documents, keyword_documents]) rest

/-- The whole retrieval loop, starting from `context = []`. -/
def gather_context (queries : List String) (o : Oracles) :
    Except String (List (List (List String))) :=
  gather_context_loop o [] queries

/-- Python `repr` of a string that contains no quote, backslash or control
character (all that occurs in the concrete inputs below): single quotes. -/
def pyReprStr (s : String) : String := "'" ++ s ++ "'"

/-- Python `str` of a list given the rendering of its elements. -/
def pyStrList (items : List String) : String :=
  "[" ++ String.intercalate ", " items ++ "]"

/-- Python `str(context)` for the nested list `chat_endpoint` passes to
`_build_prompt`, as the f-string in `_build_prompt` renders it. -/
def pyStrContext (context : List (List (List String))) : String :=
  pyStrList (context.map (fun docs =>
    pyStrList (docs.map (fun ds => pyStrList (ds.map pyReprStr)))))

/-- The `try` body of `chat_endpoint` (src/main.py, lines 87-164) over a
well-formed store: load or create the conversation, rephrase the user
message, gather retrieval context, build the prompt (the context list is
stringified by `_build_prompt`'s f-string), call the chat completion, append
the assistant reply to the prompt messages, and return the response together
with the conversation as it is saved (its `messages` key being overwritten
with the prompt messages). -/
def chat_turn (request : ChatRequest) (store : Option Conversation)
    (fresh_id : String) (o : Oracles) :
    Except String (ChatResponse × Conversation) :=
  let session_id := request.session_id.getD fresh_id
  let conversation := load_conversation_record session_id store
  let conversation_history := conversation.messages
  let rephrased_queries :=
    QueryProcessor.process_query request.user_message conversation_history
      o.qp_complete
  match gather_context rephrased_queries o with
  | Except.error e => Except.error e
  | Except.ok context =>
    let messages := RagChain.build_prompt request.user_message
      (pyStrContext context) conversation_history
    match o.chat_complete messages with
    | Except.error e => Except.error e
    | Except.ok bot_response =>
      Except.ok (ChatResponse.mk session_id bot_response,
        Conversation.mk session_id (messages ++ [Message.mk "assistant" bot_response]))

/-- The HTTP error `chat_endpoint` raises on any exception:
`HTTPException(status_code=500, detail=str(e))`. -/
structure HTTPError where
  status_code : Nat
  detail : String
deriving DecidableEq, Repr

/-- `chat_endpoint` (src/main.py, lines 77-168): on success the conversation
is saved (the single conversations file is overwritten) and the response
returned; any exception inside the `try` block becomes an HTTP 500 error,
and since `save_conversation` is only reached after every fallible step has
succeeded, the store is left untouched on failure. -/
def chat_endpoint (request : ChatRequest) (store : Option Conversation)
    (fresh_id : String) (o : Oracles) :
    Except HTTPError ChatResponse × Option Conversation :=
  match chat_turn request store fresh_id o with
  | Except.ok (response, conversation) => (Except.ok response, some conversation)
  | Except.error e => (Except.error (HTTPError.mk 500 e), store)

end MainApi

/-- A 7-message conversation history, used to exercise the trim rule on
histories longer than 6 messages. -/
def history7 : List Message :=
  [Message.mk "user" "h1", Message.mk "assistant" "h2", Message.mk "user" "h3",
   Message.mk "assistant" "h4", Message.mk "user" "h5", Message.mk "assistant" "h6",
   Message.mk "user" "h7"]

/-- Oracles for a fully successful turn: the query processor's chat client
is down (so the raw user message is the single sub-query), both store
queries return the single chunk `"text"`, and the final completion answers
`"ans"`. -/
def oracles_ok : MainApi.Oracles :=
  { qp_complete := fun _ => Except.error "down"
    create_embeddings := fun _ => Except.ok [0]
    semantic_query := fun _ => Except.ok [["text"]]
    keyword_query := fun _ _ => Except.ok [["text"]]
    chat_complete := fun _ => Except.ok "ans" }

/-- Oracles where the semantic and the keyword store query both return the
same chunk `"d1"` for every sub-query. -/
def oracles_dup : MainApi.Oracles :=
  { qp_complete := fun _ => Except.error "unused"
    create_embeddings := fun _ => Except.ok [0]
    semantic_query := fun _ => Except.ok [["d1"]]
    keyword_query := fun _ _ => Except.ok [["d1"]]
    chat_complete := fun _ => Except.error "unused" }

/-- Oracles where the rewriter decomposes the turn into sub-queries `"a"`
and `"b"`, embedding fails for `"a"` only, and everything else succeeds. -/
def oracles_a_fails : MainApi.Oracles :=
  { qp_complete := fun _ => Except.ok "1. a\n2. b"
    create_embeddings := fun l =>
      if l == ["a"] then Except.error "boom" else Except.ok [0]
    semantic_query := fun _ => Except.ok [["d"]]
    keyword_query := fun _ _ => Except.ok [["d"]]
    chat_complete := fun _ => Except.ok "ans" }

/-- C1: the claim says `_build_prompt` keeps the fixed system message at
position 0 and, when more than 2 messages are present, removes the message
at index 1, never the system message.  The code runs `messages.pop(0)`,
which removes index 0: on a 2-message history the returned sequence starts
with the history messages and contains no system message at all. -/
theorem C1_trim_drops_system_message :
    RagChain.build_prompt "q" "ctx" [Message.mk "user" "a", Message.mk "assistant" "b"]
      = [Message.mk "user" "a", Message.mk "assistant" "b",
         Message.mk "user" (RagChain.context_user_message "q" "ctx")]
    ∧ "system" ∉ (RagChain.build_prompt "q" "ctx"
        [Message.mk "user" "a", Message.mk "assistant" "b"]).map Message.role := by
  constructor
  · rfl
  · decide

/-- C8 counterexample: on a 7-message history the returned sequence retains
6 history messages (not at most 2), and the system message is gone. -/
theorem C8_seven_message_history_retains_six :
    RagChain.build_prompt "q" "c" history7
      = [Message.mk "assistant" "h2", Message.mk "user" "h3", Message.mk "assistant" "h4",
         Message.mk "user" "h5", Message.mk "assistant" "h6", Message.mk "user" "h7",
         Message.mk "user" (RagChain.context_user_message "q" "c")]
    ∧ (RagChain.build_prompt "q" "c" history7).countP (fun m => history7.contains m) = 6
    ∧ ¬ (RagChain.build_prompt "q" "c" history7).countP (fun m => history7.contains m) ≤ 2 := by
  refine ⟨rfl, by decide, by decide⟩

/-- C8 amended: for every history longer than 6 messages the assembled
sequence is exactly the last 6 history messages followed by the new
context-bearing user message — the trim rule removes the system message and
leaves 6 retained history messages, not at most 2. -/
theorem C8_trim_keeps_last_six_and_drops_system
    (query context : String) (history : List Message)
    (h : 6 < history.length) :
    RagChain.build_prompt query context history
      = pyTakeLast 6 history
        ++ [Message.mk "user" (RagChain.context_user_message query context)] := by
  have hne : history.isEmpty = false := by
    cases history with
    | nil => simp at h
    | cons a l => rfl
  have hlen6 : (pyTakeLast 6 history).length = 6 := by
    simp [pyTakeLast]
    omega
  simp [RagChain.build_prompt, hne, hlen6]

/-- C8 amended, witnessed on the concrete 7-message history. -/
theorem C8_trim_keeps_last_six_witness :
    RagChain.build_prompt "q" "c" history7
      = pyTakeLast 6 history7
        ++ [Message.mk "user" (RagChain.context_user_message "q" "c")] :=
  C8_trim_keeps_last_six_and_drops_system "q" "c" history7 (by decide)

/-- The fallback shape at the end of the decompose parser: the result is the
collected list, or a one-element list when nothing was collected. -/
theorem ite_empty_ne_nil (qs : List String) (s : String) :
    (if qs.isEmpty then [s] else qs) ≠ [] := by
  cases qs <;> simp

/-- The decompose parser never returns an empty list: either some lines were
kept, or the whole trimmed response is returned as a one-element list. -/
theorem parse_decompose_response_ne_nil (response : String) :
    QueryProcessor.parse_decompose_response response ≠ [] := by
  simp only [QueryProcessor.parse_decompose_response]
  exact ite_empty_ne_nil _ _

/-- C6: for every raw query and history, `process_query` returns a non-empty
list of sub-queries, and when the chat client fails on every call (every
stage fails) the result is exactly the one-element list holding the original
raw query unchanged. -/
theorem C6_rewriter_nonempty_and_raw_query_fallback
    (query : String) (history : List Message) :
    (∀ complete, QueryProcessor.process_query query history complete ≠ [])
    ∧ (∀ e, QueryProcessor.process_query query history
        (fun _ => Except.error e) = [query]) := by
  constructor
  · intro complete
    unfold QueryProcessor.process_query QueryProcessor.decompose_query
    cases h : complete (QueryProcessor.decompose_messages
        (QueryProcessor.contextualize_query query history complete)) with
    | ok r => simpa [h] using parse_decompose_response_ne_nil r
    | error e => simp [h]
  · intro e
    have hctx : QueryProcessor.contextualize_query query history
        (fun _ => Except.error e) = query := by
      simp [QueryProcessor.contextualize_query]
    simp [QueryProcessor.process_query, QueryProcessor.decompose_query, hctx]

/-- The imperative accumulation loop of `parse_decompose_response` computes
the `filterMap` of `decompose_line_remainder` over the lines. -/
theorem parse_loop_eq_filterMap :
    ∀ (lines : List String) (acc : List String),
      lines.foldl (fun queries l =>
        let line := pyStrip l
        if QueryProcessor.decompose_kept_line line then
          let q := pyStrip (splitFirstDotTail line)
          if !q.data.isEmpty then queries ++ [q] else queries
        else queries) acc
      = acc ++ lines.filterMap QueryProcessor.decompose_line_remainder := by
  intro lines
  induction lines with
  | nil => intro acc; simp
  | cons x xs ih =>
    intro acc
    simp only [List.foldl_cons, List.filterMap_cons]
    by_cases hk : QueryProcessor.decompose_kept_line (pyStrip x)
    · by_cases hq : (pyStrip (splitFirstDotTail (pyStrip x))).data.isEmpty
      · simp only [hk, hq, QueryProcessor.decompose_line_remainder, if_true,
          Bool.not_true, if_false, ite_true, ite_false]
        simpa [hk, hq] using ih acc
      · simp only [QueryProcessor.decompose_line_remainder]
        simp only [hk, hq, ite_true, ite_false, Bool.not_false]
        rw [ih (acc ++ [pyStrip (splitFirstDotTail (pyStrip x))])]
        simp
    · simp only [QueryProcessor.decompose_line_remainder]
      simp only [hk, ite_false]
      simpa using ih acc

/-- C7 amended: the parser keeps the stripped lines that begin with a digit
or a dash and, from each, takes the trimmed text after the first period —
the whole line when it contains no period, so a dash marker without a period
is not stripped — dropping empty remainders, with the whole trimmed response
as fallback. -/
theorem C7_parse_takes_text_after_first_period (response : String) :
    QueryProcessor.parse_decompose_response response
      = QueryProcessor.amended_parse_decompose response := by
  simp only [QueryProcessor.parse_decompose_response,
    QueryProcessor.amended_parse_decompose]
  rw [parse_loop_eq_filterMap]
  simp

/-- C7 counterexample: on the model response `"- Dress code"` the code keeps
the dash marker (the line has no period), while the claim's rule strips it:
the two parses differ. -/
theorem C7_dash_marker_not_stripped :
    QueryProcessor.parse_decompose_response "- Dress code" = ["- Dress code"]
    ∧ QueryProcessor.spec_parse_decompose "- Dress code" = ["Dress code"]
    ∧ QueryProcessor.parse_decompose_response "- Dress code"
        ≠ QueryProcessor.spec_parse_decompose "- Dress code" := by
  refine ⟨by decide, by decide, by decide⟩

/-- When every external call succeeds, the retrieval loop appends, for each
sub-query in order, the semantic `documents` field and then the keyword
`documents` field to the accumulated context. -/
theorem gather_context_loop_eq_join
    (o : MainApi.Oracles) (E : String → Int) (S K : String → List (List String)) :
    ∀ (queries : List String) (acc : List (List (List String))),
      (∀ q ∈ queries, o.create_embeddings [q] = Except.ok [E q]) →
      (∀ q ∈ queries, o.semantic_query (E q) = Except.ok (S q)) →
      (∀ q ∈ queries, o.keyword_query (E q) q = Except.ok (K q)) →
      MainApi.gather_context_loop o acc queries
        = Except.ok (acc ++ (queries.map (fun q => [S q, K q])).flatten) := by
  intro queries
  induction queries with
  | nil =>
    intro acc _ _ _
    simp [MainApi.gather_context_loop]
  | cons q qs ih =>
    intro acc hE hS hK
    have hEq := hE q (by simp)
    have hSq := hS q (by simp)
    have hKq := hK q (by simp)
    simp only [MainApi.gather_context_loop, hEq, hSq, hKq]
    rw [ih (acc ++ [S q, K q])
      (fun a ha => hE a (List.mem_cons_of_mem q ha))
      (fun a ha => hS a (List.mem_cons_of_mem q ha))
      (fun a ha => hK a (List.mem_cons_of_mem q ha))]
    simp

/-- C2 amended: the fused evidence is, in sub-query order, each sub-query's
semantic result list followed by its keyword result list, concatenated with
no deduplication at all. -/
theorem C2_fusion_concatenates_without_dedup
    (queries : List String) (o : MainApi.Oracles)
    (E : String → Int) (S K : String → List (List String))
    (hE : ∀ q ∈ queries, o.create_embeddings [q] = Except.ok [E q])
    (hS : ∀ q ∈ queries, o.semantic_query (E q) = Except.ok (S q))
    (hK : ∀ q ∈ queries, o.keyword_query (E q) q = Except.ok (K q)) :
    MainApi.gather_context queries o
      = Except.ok ((queries.map (fun q => [S q, K q])).flatten) := by
  simpa [MainApi.gather_context] using
    gather_context_loop_eq_join o E S K queries [] hE hS hK

/-- C2 amended, witnessed on one concrete sub-query. -/
theorem C2_fusion_concatenates_witness :
    MainApi.gather_context ["a"] oracles_dup = Except.ok [[["d1"]], [["d1"]]] := by
  simpa using C2_fusion_concatenates_without_dedup ["a"] oracles_dup
    (fun _ => 0) (fun _ => [["d1"]]) (fun _ => [["d1"]])
    (fun _ _ => rfl) (fun _ _ => rfl) (fun _ _ => rfl)

/-- C2 counterexample: two sub-queries whose semantic and keyword results
all return chunk `"d1"` produce a fused context that carries `"d1"` four
times — the code performs no deduplication by chunk id. -/
theorem C2_duplicate_chunk_ids_in_fused_context :
    MainApi.gather_context ["a", "b"] oracles_dup
      = Except.ok [[["d1"]], [["d1"]], [["d1"]], [["d1"]]]
    ∧ ¬ ([[["d1"]], [["d1"]], [["d1"]], [["d1"]]] :
        List (List (List String))).flatten.flatten.Nodup
    ∧ ([[["d1"]], [["d1"]], [["d1"]], [["d1"]]] :
        List (List (List String))).flatten.flatten.count "d1" = 4 := by
  refine ⟨rfl, by decide, by decide⟩

/-- C3 amended: when the embedding call or a store query raises for any
sub-query, the exception propagates out of the retrieval loop and the whole
turn fails with an HTTP 500, the store left unchanged — there is no
per-sub-query recovery. -/
theorem C3_retrieval_error_yields_http_500
    (request : MainApi.ChatRequest) (store : Option MainApi.Conversation)
    (fresh_id : String) (o : MainApi.Oracles) (e : String)
    (h : MainApi.gather_context
        (QueryProcessor.process_query request.user_message
          (MainApi.load_conversation_record (request.session_id.getD fresh_id)
            store).messages o.qp_complete) o
      = Except.error e) :
    MainApi.chat_endpoint request store fresh_id o
      = (Except.error (MainApi.HTTPError.mk 500 e), store) := by
  simp only [MainApi.chat_endpoint, MainApi.chat_turn, h]

/-- C3 amended, witnessed: with sub-queries `"a"`, `"b"` and embedding
failing on `"a"`, the endpoint answers HTTP 500 and persists nothing. -/
theorem C3_retrieval_error_yields_http_500_witness :
    MainApi.chat_endpoint (MainApi.ChatRequest.mk (some "s") "q") none "f"
      oracles_a_fails
      = (Except.error (MainApi.HTTPError.mk 500 "boom"), none) :=
  C3_retrieval_error_yields_http_500 _ _ _ _ _ (by rfl)

/-- C3 counterexample: one sub-query's embedding failure is propagated as a
whole-turn HTTP 500 — the other sub-query's evidence (which alone would have
been gathered fine) is discarded, contradicting the log-and-continue
claim. -/
theorem C3_one_subquery_failure_fails_whole_turn :
    MainApi.chat_endpoint (MainApi.ChatRequest.mk (some "s") "q") none "f"
      oracles_a_fails
      = (Except.error (MainApi.HTTPError.mk 500 "boom"), none)
    ∧ QueryProcessor.process_query "q" [] oracles_a_fails.qp_complete = ["a", "b"]
    ∧ MainApi.gather_context ["b"] oracles_a_fails
      = Except.ok [[["d"]], [["d"]]] := by
  refine ⟨rfl, by decide, rfl⟩

/-- C4: on the first turn of a session (empty history, user message
`"hi"`), the persisted conversation is the assembled prompt plus the
assistant reply — 3 messages starting with the system message, the user
entry carrying the context-bearing rewritten content — not the claimed
2-message `[user, assistant]` record with original content. -/
theorem C4_turn_persists_prompt_not_two_appended_messages :
    (MainApi.chat_endpoint (MainApi.ChatRequest.mk (some "s") "hi") none "f"
        oracles_ok).2
      = some (MainApi.Conversation.mk "s"
          [Message.mk "system" RagChain.build_system_prompt,
           Message.mk "user" (RagChain.context_user_message "hi"
             (MainApi.pyStrContext [[["text"]], [["text"]]])),
           Message.mk "assistant" "ans"])
    ∧ (MainApi.chat_endpoint (MainApi.ChatRequest.mk (some "s") "hi") none "f"
        oracles_ok).2
      ≠ some (MainApi.Conversation.mk "s"
          [Message.mk "user" "hi", Message.mk "assistant" "ans"]) := by
  refine ⟨rfl, by decide⟩

/-- C5: `_format_context` does render evidence as `[Source i - title]`
blocks joined by blank lines, but `chat_endpoint` never calls it: the final
user message of the assembled prompt embeds the Python `str()` of the raw
nested result lists, which differs from the formatted context block. -/
theorem C5_prompt_embeds_raw_list_not_formatted_context :
    RagChain.format_context [RagChain.RetrievedDoc.mk (some "Leave") "text"]
      = "[Source 1 - Leave]\ntext"
    ∧ (MainApi.chat_endpoint (MainApi.ChatRequest.mk (some "s") "hi") none "f"
        oracles_ok).2.map (fun c => (c.messages.map Message.content).get? 1)
      = some (some ("Context from HR documents:\n[[['text']], [['text']]]\n\nQuestion: hi"))
    ∧ "Context from HR documents:\n[[['text']], [['text']]]\n\nQuestion: hi"
      ≠ RagChain.context_user_message "hi"
          (RagChain.format_context [RagChain.RetrievedDoc.mk (some "Leave") "text"]) := by
  refine ⟨by decide, rfl, by decide⟩

/-- C9: when the final chat completion raises, the endpoint returns an HTTP
500 error and the persisted conversation store is exactly what it was before
the turn — `save_conversation` is only reached after a successful
completion. -/
theorem C9_completion_failure_persists_nothing
    (request : MainApi.ChatRequest) (store : Option MainApi.Conversation)
    (fresh_id : String)
    (qp : List Message → Except String String)
    (ce : List String → Except String (List Int))
    (sq : Int → Except String (List (List String)))
    (kq : Int → String → Except String (List (List String)))
    (e : String) :
    (MainApi.chat_endpoint request store fresh_id
        (MainApi.Oracles.mk qp ce sq kq (fun _ => Except.error e))).2 = store
    ∧ ∃ d, (MainApi.chat_endpoint request store fresh_id
        (MainApi.Oracles.mk qp ce sq kq (fun _ => Except.error e))).1
      = Except.error (MainApi.HTTPError.mk 500 d) := by
  cases hg : MainApi.gather_context
      (QueryProcessor.process_query request.user_message
        (MainApi.load_conversation_record (request.session_id.getD fresh_id)
          store).messages qp)
      (MainApi.Oracles.mk qp ce sq kq (fun _ => Except.error e)) with
  | ok ctx =>
    refine ⟨?_, e, ?_⟩ <;>
      simp [MainApi.chat_endpoint, MainApi.chat_turn, hg]
  | error e2 =>
    refine ⟨?_, e2, ?_⟩ <;>
      simp [MainApi.chat_endpoint, MainApi.chat_turn, hg]

/-- C10 counterexample: a conversations file holding valid JSON that is not
an object — here the array `[]` — makes `data.get("session_id")` raise
`AttributeError`, which `load_conversation` does not catch: the function is
not total and does not return a fresh record in this case. -/
theorem C10_nonobject_json_raises :
    MainApi.load_conversation "s" (MainApi.FileContent.parsed (MainApi.Json.arr []))
      = Except.error "AttributeError"
    ∧ ∀ record, MainApi.load_conversation "s"
        (MainApi.FileContent.parsed (MainApi.Json.arr [])) ≠ Except.ok record := by
  refine ⟨rfl, ?_⟩
  intro record h
  simp [MainApi.load_conversation] at h

/-- C10 amended: `load_conversation` returns the stored record exactly when
the file parses to a JSON object whose `session_id` field is the requested
string; it returns a fresh record when the file is missing, unparseable, or
an object without that matching field; but on a file parsing to a non-object
JSON value it raises (`AttributeError`) instead of returning a fresh
record. -/
theorem C10_load_conversation_cases :
    (∀ sid, MainApi.load_conversation sid MainApi.FileContent.missing
      = Except.ok (MainApi.fresh_conversation sid))
    ∧ (∀ sid, MainApi.load_conversation sid MainApi.FileContent.unparseable
      = Except.ok (MainApi.fresh_conversation sid))
    ∧ (∀ sid fields, MainApi.session_id_of fields = some (MainApi.Json.str sid) →
      MainApi.load_conversation sid
          (MainApi.FileContent.parsed (MainApi.Json.obj fields))
        = Except.ok (MainApi.Json.obj fields))
    ∧ (∀ sid fields, MainApi.session_id_of fields ≠ some (MainApi.Json.str sid) →
      MainApi.load_conversation sid
          (MainApi.FileContent.parsed (MainApi.Json.obj fields))
        = Except.ok (MainApi.fresh_conversation sid))
    ∧ (∀ sid data, (∀ fields, data ≠ MainApi.Json.obj fields) →
      MainApi.load_conversation sid (MainApi.FileContent.parsed data)
        = Except.error "AttributeError") := by
  refine ⟨fun _ => rfl, fun _ => rfl, ?_, ?_, ?_⟩
  · intro sid fields h
    simp [MainApi.load_conversation, h]
  · intro sid fields h
    cases hv : MainApi.session_id_of fields with
    | none => simp [MainApi.load_conversation, hv]
    | some j =>
      cases j with
      | str s =>
        have hs : ¬ s = sid := by
          intro hc
          exact h (by rw [hv, hc])
        simp [MainApi.load_conversation, hv, hs]
      | null => simp [MainApi.load_conversation, hv]
      | bool b => simp [MainApi.load_conversation, hv]
      | num n => simp [MainApi.load_conversation, hv]
      | arr items => simp [MainApi.load_conversation, hv]
      | obj fs => simp [MainApi.load_conversation, hv]
  · intro sid data h
    cases data with
    | obj fields => exact absurd rfl (h fields)
    | null => rfl
    | bool b => rfl
    | num n => rfl
    | str s => rfl
    | arr items => rfl

/-- C10 amended, witnessed: a parsed object with the matching session id is
returned verbatim. -/
theorem C10_load_conversation_cases_witness :
    MainApi.load_conversation "s"
        (MainApi.FileContent.parsed
          (MainApi.Json.obj [("session_id", MainApi.Json.str "s")]))
      = Except.ok (MainApi.Json.obj [("session_id", MainApi.Json.str "s")]) :=
  C10_load_conversation_cases.2.2.1 "s" [("session_id", MainApi.Json.str "s")] rfl
